import Mathlib

/- Verification development for the English/Urdu chat translator
   (src/translator/main.py). Strings are modelled as Lean `String`
   (a sequence of Unicode scalar values, matching Python `str` for the
   values this program handles); character tests work on `String.data`. -/

namespace Translator

/- Python whitespace, as used by `str.strip()` and by `\s` in a `re`
   pattern over `str` (both use the same set): U+0009..U+000D,
   U+001C..U+001F, U+0020, U+0085, U+00A0, U+1680, U+2000..U+200A,
   U+2028, U+2029, U+202F, U+205F, U+3000. -/
def isPySpace (c : Char) : Bool :=
  (9 ≤ c.toNat && c.toNat ≤ 13) || (28 ≤ c.toNat && c.toNat ≤ 32) ||
  c.toNat == 133 || c.toNat == 160 || c.toNat == 5760 ||
  (8192 ≤ c.toNat && c.toNat ≤ 8202) || c.toNat == 8232 || c.toNat == 8233 ||
  c.toNat == 8239 || c.toNat == 8287 || c.toNat == 12288

/- `[a-zA-Z]` in the detection pattern (main.py line 104). -/
def isLatinLetter (c : Char) : Bool :=
  (97 ≤ c.toNat && c.toNat ≤ 122) || (65 ≤ c.toNat && c.toNat ≤ 90)

/- `[؀-ۿ]` — the Arabic block range used by both the validation
   pattern (line 90) and the detection pattern (line 102). -/
def isArabicBlock (c : Char) : Bool :=
  0x600 ≤ c.toNat && c.toNat ≤ 0x6FF

/- `\w` in a Unicode `re` pattern over `str`: alphanumerics
   (`str.isalnum`: Unicode categories Lu, Ll, Lt, Lm, Lo, Nd, Nl, No)
   plus underscore. Modelled over the two scripts this program
   distinguishes: ASCII alphanumerics and underscore, and the
   alphanumeric code points of the Arabic block U+0600..U+06FF
   (letters U+0620..U+0640, U+0641..U+064A, U+066E..U+066F,
   U+0671..U+06D3, U+06D5, U+06E5..U+06E6, U+06EE..U+06EF,
   U+06FA..U+06FC, U+06FF and digits U+0660..U+0669, U+06F0..U+06F9;
   combining marks and punctuation of that block are not word
   characters). Characters of other scripts are outside the model. -/
def isWordChar (c : Char) : Bool :=
  (48 ≤ c.toNat && c.toNat ≤ 57) || (65 ≤ c.toNat && c.toNat ≤ 90) ||
  (97 ≤ c.toNat && c.toNat ≤ 122) || c.toNat == 95 ||
  (0x620 ≤ c.toNat && c.toNat ≤ 0x64A) ||
  (0x660 ≤ c.toNat && c.toNat ≤ 0x669) ||
  (0x66E ≤ c.toNat && c.toNat ≤ 0x66F) ||
  (0x671 ≤ c.toNat && c.toNat ≤ 0x6D3) || c.toNat == 0x6D5 ||
  (0x6E5 ≤ c.toNat && c.toNat ≤ 0x6E6) ||
  (0x6EE ≤ c.toNat && c.toNat ≤ 0x6EF) ||
  (0x6F0 ≤ c.toNat && c.toNat ≤ 0x6F9) ||
  (0x6FA ≤ c.toNat && c.toNat ≤ 0x6FC) || c.toNat == 0x6FF

/- The punctuation literals of the first alternative of the validation
   pattern, `[\w\s.,!?\x27\x22-]` (line 90): period, comma, exclamation
   mark, question mark, apostrophe, double quote, hyphen. -/
def isPunct1 (c : Char) : Bool :=
  c == '.' || c == ',' || c == '!' || c == '?' ||
  c == Char.ofNat 39 || c == '"' || c == '-'

/- The punctuation literals of the second alternative,
   `[؀-ۿ\s.,!?]` (line 90): period, comma, exclamation mark,
   question mark only — no apostrophe, double quote or hyphen. -/
def isPunct2 (c : Char) : Bool :=
  c == '.' || c == ',' || c == '!' || c == '?'

/- Character class of the first alternative of the validation pattern. -/
def inClass1 (c : Char) : Bool :=
  isWordChar c || isPySpace c || isPunct1 c

/- Character class of the second alternative of the validation pattern. -/
def inClass2 (c : Char) : Bool :=
  isArabicBlock c || isPySpace c || isPunct2 c

/- Python `str.strip()`: remove leading and trailing Python whitespace. -/
def pyStrip (s : String) : String :=
  String.mk (((s.data.dropWhile isPySpace).reverse.dropWhile isPySpace).reverse)

/- Python `str.lower()`, modelled on ASCII (the command comparisons that
   use it only ever compare against the ASCII literals "/history" and
   "/clear"; non-ASCII case mappings cannot produce those strings). -/
def asciiLower (c : Char) : Char :=
  if 65 ≤ c.toNat && c.toNat ≤ 90 then Char.ofNat (c.toNat + 32) else c

def pyLower (s : String) : String :=
  String.mk (s.data.map asciiLower)

/- validate_input (main.py lines 80-91).
   `re.match` anchors at the start; each alternative is `X+$`, so the
   pattern matches iff the whole text consists of characters of one
   class (the `$`-before-trailing-newline case adds nothing, because
   a trailing newline is itself in `\s`, which both classes contain),
   and `+` demands at least one character. -/
def validate_input (text : String) : Bool :=
  if text.data.isEmpty || (pyStrip text).data.isEmpty then false
  else
    !text.data.isEmpty && (text.data.all inClass1 || text.data.all inClass2)

/- detect_language (main.py lines 93-109). `re.search` on a character
   class succeeds iff some character of the text is in the class; the
   try/except is dead (searching a `str` cannot raise). -/
def detect_language (text : String) : String :=
  if text.data.any isArabicBlock then "ur"
  else if text.data.any isLatinLetter then "en"
  else "unknown"

/- The validator as claim C7 words it: alternative (b) is the Arabic
   block plus THE SAME punctuation set as alternative (a). Written from
   the claim, for comparison against validate_input. -/
def validate_spec_claimed (text : String) : Bool :=
  !text.data.isEmpty && !(text.data.all isPySpace) &&
    (text.data.all inClass1 ||
     text.data.all (fun c => isArabicBlock c || isPySpace c || isPunct1 c))

/- The validator as claim C7 amended: alternative (b) allows only the
   punctuation subset actually present in the second alternative of the
   pattern (period, comma, exclamation mark, question mark). -/
def validate_spec_amended (text : String) : Bool :=
  !text.data.isEmpty && !(text.data.all isPySpace) &&
    (text.data.all inClass1 || text.data.all inClass2)

/- The two translation-direction handles built by initialize_translators
   (lines 59-78). An external call either returns translated text
   (`Except.ok`) or raises an exception with message `e` (`Except.error e`,
   modelling Python `str(e)`). initialize_translators returns either a
   dictionary with both keys or the empty dictionary; the latter is
   modelled as `none` at translate_text call sites. -/
structure Translators where
  en_to_ur : String → Except String String
  ur_to_en : String → Except String String

/- `translators[translator_key].translate(text)` (line 134). -/
def external_call (tr : Translators) (key : String) (text : String) :
    Except String String :=
  if key = "en_to_ur" then tr.en_to_ur text else tr.ur_to_en text

/- The translator key chosen at line 132:
   `'en_to_ur' if source_lang == 'en' else 'ur_to_en'`. -/
def selected_key (text : String) : String :=
  if detect_language text = "en" then "en_to_ur" else "ur_to_en"

/- The target-language name chosen at line 133. -/
def selected_target (text : String) : String :=
  if detect_language text = "en" then "Urdu" else "English"

/- The body of translate_text inside the `try` after all precondition
   checks pass (lines 132-136): first component is the outcome —
   `Except.ok` with the formatted success string, or `Except.error`
   carrying the exception raised by the external call; second component
   records the external calls made (key, argument), instrumentation used
   to state that the collaborator is or is not invoked. -/
def translate_attempt (tr : Translators) (text : String) :
    Except String String × List (String × String) :=
  (match external_call tr (selected_key text) text with
   | Except.ok t =>
       Except.ok ("Translation to " ++ selected_target text ++ ": " ++ t)
   | Except.error e => Except.error e,
   [(selected_key text, text)])

/- translate_text (lines 111-139). `translators` is `none` for the empty
   dictionary; `internet` is the result of the `check_internet()` probe at
   line 123. The except-clause at lines 137-139 turns any exception from
   the body into the formatted error string, so the function returns a
   plain string in every case. The second component is the list of
   external translation calls made during this invocation. -/
def translate_text (translators : Option Translators) (internet : Bool)
    (text : String) : String × List (String × String) :=
  match translators with
  | none => ("Error: Translators not initialized.", [])
  | some tr =>
    if !internet then
      ("Error: No internet connection. Please check your network.", [])
    else if !validate_input text then
      ("Error: Please provide valid English or Urdu text.", [])
    else if detect_language text = "unknown" then
      ("Error: Unable to detect language. Use clear English or Urdu text.", [])
    else
      match translate_attempt tr text with
      | (Except.ok s, calls) => (s, calls)
      | (Except.error e, calls) =>
          ("Error: Unable to translate. Check your internet connection. ("
             ++ e ++ ")", calls)

/- One history record: the dictionary
   appended at lines 224 and 233. -/
structure HistoryEntry where
  role : String
  content : String
  timestamp : String
deriving DecidableEq

/- Python `history[-10:]`: the most recent (at most) 10 entries. -/
def lastN (n : Nat) (l : List HistoryEntry) : List HistoryEntry :=
  l.drop (l.length - n)

/- The rendering of one entry by the /history command (line 258):
   `"<timestamp> [<role>]: <content>"`. -/
def renderEntry (e : HistoryEntry) : String :=
  e.timestamp ++ " [" ++ e.role ++ "]: " ++ e.content

/- process_command (lines 245-266). It reads the session history store;
   its only write (line 261, on /clear) is returned as the second
   component. -/
def process_command (command : String) (store : List HistoryEntry) :
    String × List HistoryEntry :=
  let cmd := pyStrip (pyLower command)
  if cmd = "/history" then
    (if store.isEmpty then "No translation history available."
     else String.intercalate "\n" (store.map renderEntry), store)
  else if cmd = "/clear" then
    ("Translation history cleared.", [])
  else
    ("Unknown command. Available: /history, /clear", store)

/- The outcome of one completed message turn: the response sent to the
   user, the session history left in the store, and the list passed to
   save_history_to_file. -/
structure TurnOut where
  response : String
  store : List HistoryEntry
  saved : List HistoryEntry
deriving DecidableEq

/- handle_message (lines 210-243), the normal (non-raising) path.
   `store` is the session history at the start of the turn; `t1` and `t2`
   are the timestamps taken at lines 224 and 233. The local variable
   `history` (line 217) aliases the stored list, so process_command at
   line 227 sees the list with the user entry of line 224 already
   appended; the store write process_command performs for /clear
   (line 261) is dead, because line 234 unconditionally overwrites the
   key with `history[-10:]` taken from the local list. Line 235 then
   passes the full local list to save_history_to_file. -/
def handle_message (translators : Option Translators) (internet : Bool)
    (store : List HistoryEntry) (input t1 t2 : String) : TurnOut :=
  let user_input := pyStrip input
  let h1 := store ++ [⟨"user", user_input, t1⟩]
  let response :=
    if (pyLower user_input).data.head? = some '/' then
      (process_command user_input h1).1
    else
      (translate_text translators internet user_input).1
  let h2 := h1 ++ [⟨"assistant", response, t2⟩]
  ⟨response, lastN 10 h2, h2⟩

/- The session store after a sequence of turns, each turn given as
   (input, timestamp of the user entry, timestamp of the assistant
   entry). -/
def runStore (translators : Option Translators) (internet : Bool)
    (store : List HistoryEntry) :
    List (String × String × String) → List HistoryEntry
  | [] => store
  | t :: ts =>
      runStore translators internet
        (handle_message translators internet store t.1 t.2.1 t.2.2).store ts

/- Mock collaborators used only to instantiate theorems at concrete
   inputs. -/
def dummyTranslators : Translators :=
  ⟨fun _ => Except.ok "", fun _ => Except.ok ""⟩

def mockTranslators : Translators :=
  ⟨fun _ => Except.ok "ہیلو", fun _ => Except.ok "Hello"⟩

def failingTranslators : Translators :=
  ⟨fun _ => Except.error "boom", fun _ => Except.error "boom"⟩

lemma forall_dropWhile_iff (p : Char → Bool) (l : List Char) :
    (∀ x ∈ l.dropWhile p, p x) ↔ ∀ x ∈ l, p x := by
  constructor
  · intro h x hx
    rcases List.mem_append.mp
        ((List.takeWhile_append_dropWhile p l) ▸ hx) with h1 | h2
    · exact List.mem_takeWhile_imp h1
    · exact h x h2
  · intro h x hx
    exact h x ((List.dropWhile_sublist p).subset hx)

lemma pyStrip_data_nil_iff (s : String) :
    (pyStrip s).data = [] ↔ s.data.all isPySpace = true := by
  show (((s.data.dropWhile isPySpace).reverse.dropWhile isPySpace).reverse)
      = [] ↔ _
  rw [List.reverse_eq_nil_iff, List.dropWhile_eq_nil_iff, List.all_eq_true]
  constructor
  · intro h
    exact (forall_dropWhile_iff isPySpace s.data).mp
      (fun x hx => h x (List.mem_reverse.mpr hx))
  · intro h x hx
    exact h x ((List.dropWhile_sublist isPySpace).subset (List.mem_reverse.mp hx))

lemma handle_message_saved_eq (tr : Option Translators) (net : Bool)
    (store : List HistoryEntry) (input t1 t2 : String) :
    (handle_message tr net store input t1 t2).saved
      = store ++
        [⟨"user", pyStrip input, t1⟩,
         ⟨"assistant", (handle_message tr net store input t1 t2).response, t2⟩] := by
  simp [handle_message]

lemma handle_message_store_eq (tr : Option Translators) (net : Bool)
    (store : List HistoryEntry) (input t1 t2 : String) :
    (handle_message tr net store input t1 t2).store
      = lastN 10 ((handle_message tr net store input t1 t2).saved) := rfl

lemma lastN_length (n : Nat) (l : List HistoryEntry) :
    (lastN n l).length = min n l.length := by
  simp only [lastN, List.length_drop]
  omega

lemma handle_message_store_len (tr : Option Translators) (net : Bool)
    (store : List HistoryEntry) (input t1 t2 : String) :
    ((handle_message tr net store input t1 t2).store).length ≤ 10 := by
  rw [handle_message_store_eq, lastN_length]
  omega

lemma runStore_length_le (tr : Option Translators) (net : Bool)
    (s0 : List HistoryEntry) (ts : List (String × String × String))
    (h : ts ≠ []) : (runStore tr net s0 ts).length ≤ 10 := by
  induction ts generalizing s0 with
  | nil => exact absurd rfl h
  | cons t ts ih =>
    cases ts with
    | nil =>
      simpa [runStore] using handle_message_store_len tr net s0 t.1 t.2.1 t.2.2
    | cons t2 ts2 =>
      simp only [runStore]
      exact ih _ (by simp)

/-- Claim C1: the spec says that sending `/clear` and then `/history`
yields the fixed no-history response, because `/clear` leaves the stored
session history empty once its turn completes. The code does not do
this: `process_command` does clear the store (line 261), but
`handle_message` then unconditionally overwrites the store with the last
ten entries of its local, still-populated list (line 234). Starting from
an empty session, after a `/clear` turn the store holds the two entries
of that turn, so the following `/history` turn renders them (together
with its own just-appended user entry) instead of returning
"No translation history available.". This theorem evaluates the two
turns at that failing input. -/
theorem c1_clear_then_history_bug :
    (handle_message none false [] "/clear" "T1" "T2").response
        = "Translation history cleared." ∧
    (handle_message none false
        (handle_message none false [] "/clear" "T1" "T2").store
        "/history" "T3" "T4").response
      ≠ "No translation history available." ∧
    (handle_message none false
        (handle_message none false [] "/clear" "T1" "T2").store
        "/history" "T3" "T4").response
      = "T1 [user]: /clear\nT2 [assistant]: Translation history cleared.\nT3 [user]: /history" := by
  refine ⟨by decide, by decide, by decide⟩

/-- Claim C2 (counterexample): the list passed to save is NOT always the
untruncated accumulated history of the session. Starting from a loaded
session history of nine entries, after two turns the accumulated history
has 13 entries, but the list saved on the second turn has only 12: the
first turn capped the session copy at 10 before the second turn started
accumulating. -/
theorem c2_counterexample :
    (handle_message none false
        (handle_message none false (List.replicate 9 ⟨"user", "x", "t0"⟩)
          "/x" "T1" "T2").store
        "/x" "T3" "T4").saved
      ≠ List.replicate 9 ⟨"user", "x", "t0"⟩ ++
        [⟨"user", "/x", "T1"⟩,
         ⟨"assistant", "Unknown command. Available: /history, /clear", "T2"⟩,
         ⟨"user", "/x", "T3"⟩,
         ⟨"assistant", "Unknown command. Available: /history, /clear", "T4"⟩] := by
  decide

/-- Claim C2 (amended): on each turn, the list passed to save is the
session copy from the start of the turn — itself already capped at ten
entries by any earlier turn — extended with the current turn's user and
assistant entries. The save is pre-truncation only with respect to the
current turn; across turns the ten-entry cap does propagate into what is
persisted, so from the second turn on the saved list has at most twelve
entries. -/
theorem c2_saved_is_capped_store_plus_turn (tr : Option Translators)
    (net : Bool) (s0 : List HistoryEntry)
    (ts : List (String × String × String)) (input t1 t2 : String)
    (h : ts ≠ []) :
    (handle_message tr net (runStore tr net s0 ts) input t1 t2).saved
      = runStore tr net s0 ts ++
        [⟨"user", pyStrip input, t1⟩,
         ⟨"assistant",
            (handle_message tr net (runStore tr net s0 ts) input t1 t2).response,
            t2⟩] ∧
    ((handle_message tr net (runStore tr net s0 ts) input t1 t2).saved).length
      ≤ 12 := by
  refine ⟨handle_message_saved_eq _ _ _ _ _ _, ?_⟩
  rw [handle_message_saved_eq]
  have := runStore_length_le tr net s0 ts h
  simp only [List.length_append, List.length_cons, List.length_nil]
  omega

/-- Witness for the amended C2 theorem at a concrete one-turn prefix. -/
theorem c2_saved_witness :
    (handle_message none false (runStore none false [] [("/x", "a", "b")])
        "/x" "c" "d").saved
      = runStore none false [] [("/x", "a", "b")] ++
        [⟨"user", pyStrip "/x", "c"⟩,
         ⟨"assistant",
            (handle_message none false (runStore none false [] [("/x", "a", "b")])
              "/x" "c" "d").response,
            "d"⟩] ∧
    ((handle_message none false (runStore none false [] [("/x", "a", "b")])
        "/x" "c" "d").saved).length ≤ 12 :=
  c2_saved_is_capped_store_plus_turn none false [] [("/x", "a", "b")]
    "/x" "c" "d" (by decide)

/-- Claim C3: after any message turn, the session history left in the
store has at most ten entries, and it is exactly the most recent entries
of the pre-truncation list (the list that was saved) in their original
order: a suffix of it, of length `min 10` its length. -/
theorem c3_session_truncation (tr : Option Translators) (net : Bool)
    (store : List HistoryEntry) (input t1 t2 : String) :
    ((handle_message tr net store input t1 t2).store).length ≤ 10 ∧
    (handle_message tr net store input t1 t2).store
      = lastN 10 ((handle_message tr net store input t1 t2).saved) ∧
    List.IsSuffix ((handle_message tr net store input t1 t2).store)
      ((handle_message tr net store input t1 t2).saved) ∧
    ((handle_message tr net store input t1 t2).store).length
      = min 10 ((handle_message tr net store input t1 t2).saved).length := by
  refine ⟨handle_message_store_len tr net store input t1 t2,
    handle_message_store_eq tr net store input t1 t2, ?_, ?_⟩
  · rw [handle_message_store_eq]
    exact List.drop_suffix _ _
  · rw [handle_message_store_eq, lastN_length]

/-- Claim C4: detect_language classifies as Urdu whenever some character
lies in U+0600..U+06FF, regardless of co-occurring Latin characters;
otherwise as English whenever some Latin letter occurs; otherwise as
unknown. -/
theorem c4_detect_language (text : String) :
    (text.data.any isArabicBlock = true → detect_language text = "ur") ∧
    (text.data.any isArabicBlock = false →
       text.data.any isLatinLetter = true → detect_language text = "en") ∧
    (text.data.any isArabicBlock = false →
       text.data.any isLatinLetter = false →
       detect_language text = "unknown") := by
  unfold detect_language
  refine ⟨fun h => by simp [h], fun h1 h2 => by simp [h1, h2],
    fun h1 h2 => by simp [h1, h2]⟩

/-- Witness for C4 at concrete inputs, including a mixed-script string. -/
theorem c4_witness :
    detect_language "Hello سلام" = "ur" ∧ detect_language "abc" = "en" ∧
    detect_language "123" = "unknown" :=
  ⟨(c4_detect_language "Hello سلام").1 (by decide),
   (c4_detect_language "abc").2.1 (by decide) (by decide),
   (c4_detect_language "123").2.2 (by decide) (by decide)⟩

/-- Claim C5: translate_text checks its preconditions in the fixed order
translators-not-initialized, connectivity, input validation, language
detection, returning a distinct fixed error string at the first failure;
with no connectivity it returns exactly the fixed no-internet string and
makes no external translation call (the call list is empty). -/
theorem c5_precondition_order :
    (∀ (internet : Bool) (text : String),
        translate_text none internet text
          = ("Error: Translators not initialized.", [])) ∧
    (∀ (tr : Translators) (text : String),
        translate_text (some tr) false text
          = ("Error: No internet connection. Please check your network.", [])) ∧
    (∀ (tr : Translators) (text : String), validate_input text = false →
        translate_text (some tr) true text
          = ("Error: Please provide valid English or Urdu text.", [])) ∧
    (∀ (tr : Translators) (text : String), validate_input text = true →
        detect_language text = "unknown" →
        translate_text (some tr) true text
          = ("Error: Unable to detect language. Use clear English or Urdu text.",
             [])) ∧
    ("Error: Translators not initialized."
        ≠ "Error: No internet connection. Please check your network.") ∧
    ("Error: No internet connection. Please check your network."
        ≠ "Error: Please provide valid English or Urdu text.") ∧
    ("Error: Please provide valid English or Urdu text."
        ≠ "Error: Unable to detect language. Use clear English or Urdu text.") := by
  refine ⟨fun net text => rfl, fun tr text => rfl,
    fun tr text h => by simp [translate_text, h],
    fun tr text h1 h2 => by simp [translate_text, h1, h2],
    by decide, by decide, by decide⟩

/-- Witness for C5: each precondition failure observed at a concrete
input ("@@" fails validation; "123" validates but detects as unknown). -/
theorem c5_witness :
    translate_text none true "Hello"
      = ("Error: Translators not initialized.", []) ∧
    translate_text (some dummyTranslators) false "Hello"
      = ("Error: No internet connection. Please check your network.", []) ∧
    translate_text (some dummyTranslators) true "@@"
      = ("Error: Please provide valid English or Urdu text.", []) ∧
    translate_text (some dummyTranslators) true "123"
      = ("Error: Unable to detect language. Use clear English or Urdu text.",
         []) :=
  ⟨c5_precondition_order.1 true "Hello",
   c5_precondition_order.2.1 dummyTranslators "Hello",
   c5_precondition_order.2.2.1 dummyTranslators "@@" (by decide),
   c5_precondition_order.2.2.2.1 dummyTranslators "123" (by decide) (by decide)⟩

/-- Claim C6: when all preconditions hold and the detected language is
English (resp. Urdu), translate_text invokes exactly the matching
direction en_to_ur (resp. ur_to_en) on the input and returns
"Translation to Urdu: " (resp. "Translation to English: ") followed by
the text returned by the external call. -/
theorem c6_success_format :
    (∀ (tr : Translators) (text out : String), validate_input text = true →
        detect_language text = "en" → tr.en_to_ur text = Except.ok out →
        translate_text (some tr) true text
          = ("Translation to Urdu: " ++ out, [("en_to_ur", text)])) ∧
    (∀ (tr : Translators) (text out : String), validate_input text = true →
        detect_language text = "ur" → tr.ur_to_en text = Except.ok out →
        translate_text (some tr) true text
          = ("Translation to English: " ++ out, [("ur_to_en", text)])) := by
  constructor
  · intro tr text out hv hd hc
    simp [translate_text, translate_attempt, external_call, selected_key,
      selected_target, hv, hd, hc]
  · intro tr text out hv hd hc
    simp [translate_text, translate_attempt, external_call, selected_key,
      selected_target, hv, hd, hc]

/-- Witness for C6: the spec's two end-to-end examples with mocked
translators — "Hello" to "Translation to Urdu: ہیلو" and "سلام" to
"Translation to English: Hello". -/
theorem c6_witness :
    translate_text (some mockTranslators) true "Hello"
      = ("Translation to Urdu: " ++ "ہیلو", [("en_to_ur", "Hello")]) ∧
    translate_text (some mockTranslators) true "سلام"
      = ("Translation to English: " ++ "Hello", [("ur_to_en", "سلام")]) :=
  ⟨c6_success_format.1 mockTranslators "Hello" "ہیلو" (by decide) (by decide)
     rfl,
   c6_success_format.2 mockTranslators "سلام" "Hello" (by decide) (by decide)
     rfl⟩

/-- Claim C7 (counterexample): the claim gives alternative (b) the same
punctuation set as alternative (a), but the second alternative of the
pattern has no apostrophe, double quote or hyphen. The string made of
U+061F (Arabic question mark, inside the block but not a word character)
and a hyphen is accepted by the claim as stated and rejected by the
code. -/
theorem c7_counterexample :
    validate_spec_claimed "؟-" = true ∧ validate_input "؟-" = false := by
  decide

/-- Claim C7 (amended): validate_input returns false on empty or
whitespace-only input, and otherwise returns true exactly when the whole
string lies in class (a) — word characters, whitespace and the
punctuation set period, comma, exclamation mark, question mark,
apostrophe, double quote, hyphen — or in class (b) — the Arabic block
U+0600..U+06FF, whitespace, and only period, comma, exclamation mark and
question mark. In particular the empty string and "   " are rejected and
"Hello, world!" and "سلام" are accepted. -/
theorem c7_validate_amended :
    (∀ text : String, validate_input text = validate_spec_amended text) ∧
    validate_input "" = false ∧ validate_input "   " = false ∧
    validate_input "Hello, world!" = true ∧ validate_input "سلام" = true := by
  refine ⟨?_, by decide, by decide, by decide, by decide⟩
  intro text
  unfold validate_input validate_spec_amended
  by_cases he : text.data.isEmpty
  · simp [he]
  · by_cases hs : (pyStrip text).data.isEmpty
    · have h : text.data.all isPySpace = true :=
        (pyStrip_data_nil_iff text).mp (List.isEmpty_iff.mp hs)
      simp [he, hs, h]
    · have h : ¬ text.data.all isPySpace = true := by
        intro hall
        exact hs (List.isEmpty_iff.mpr ((pyStrip_data_nil_iff text).mpr hall))
      simp [he, hs, h]

/-- Claim C9: any exception raised by the external translation call
inside translate_text is caught and returned as the formatted error
string; translate_text returns a plain string (the exception never
propagates), and the failed call is the one that was made. -/
theorem c9_exception_caught (tr : Translators) (text e : String)
    (hv : validate_input text = true)
    (hd : detect_language text ≠ "unknown")
    (herr : external_call tr (selected_key text) text = Except.error e) :
    translate_text (some tr) true text
      = ("Error: Unable to translate. Check your internet connection. ("
           ++ e ++ ")", [(selected_key text, text)]) := by
  simp [translate_text, translate_attempt, hv, hd, herr]

/-- Witness for C9: a translator mock that raises "boom" on an English
input yields the formatted error string, with the en_to_ur call made. -/
theorem c9_witness :
    translate_text (some failingTranslators) true "Hello"
      = ("Error: Unable to translate. Check your internet connection. ("
           ++ "boom" ++ ")", [(selected_key "Hello", "Hello")]) :=
  c9_exception_caught failingTranslators "Hello" "boom" (by decide)
    (by decide) rfl

/-- Claim C10 (counterexample): as stated, the claim covers every
non-empty string over word characters, allowed punctuation and
whitespace; a single space is such a string, yet validate_input rejects
it (whitespace-only input fails the guard). -/
theorem c10_counterexample :
    validate_input " " = false ∧ " ".data ≠ [] ∧
    " ".data.all inClass1 = true := by
  decide

/-- Claim C10 (amended): because the first alternative of the pattern
uses Unicode-aware word characters, every non-empty and not
whitespace-only string composed entirely of word characters (of the
modelled scripts), allowed punctuation and whitespace is accepted — in
particular mixed English/Urdu strings. -/
theorem c10_unicode_word_accepted (text : String) (h1 : text.data ≠ [])
    (h2 : text.data.all isPySpace = false)
    (h3 : text.data.all inClass1 = true) :
    validate_input text = true := by
  unfold validate_input
  have he : text.data.isEmpty = false := by
    simpa [List.isEmpty_iff] using h1
  have hs : (pyStrip text).data.isEmpty = false := by
    rw [Bool.eq_false_iff, Ne, List.isEmpty_iff, pyStrip_data_nil_iff]
    simp [h2]
  simp [he, hs, h3]

/-- Witness for the amended C10 at the mixed-script input
"Hello سلام". -/
theorem c10_witness : validate_input "Hello سلام" = true :=
  c10_unicode_word_accepted "Hello سلام" (by decide) (by decide) (by decide)

/- === History persistence (claim C8) ===

save_history_to_file (lines 141-152) writes
`json.dump(history, f, ensure_ascii=False)` to the fixed file;
load_history_from_file (lines 154-169) reads it back with `json.load`,
returning the empty list when the file is absent or reading fails. The
file is modelled as its contents, `Option (List Char)` (`none` = file
absent). The serialization below is the exact output format of
`json.dump` with default separators and `ensure_ascii=False`:
`[` entry `, ` entry ... `]`, each entry
`\x7b"role": <string>, "content": <string>, "timestamp": <string>\x7d`,
strings quoted with `"`, escaping exactly backslash, double quote, the
shorthand control characters (backspace, form feed, newline, carriage
return, tab) and other control characters below U+0020 as `\u00xx`
lowercase hex; all other characters (non-ASCII included) verbatim. The
parser below models `json.load` restricted to the grammar `json.dump`
emits for such lists (fixed key order, `, ` and `: ` separators, no
insignificant whitespace, no trailing data), which is the only input the
round-trip property exercises; it also accepts the `\/` escape and
uppercase hex that `json.load` would accept. -/

/- Lowercase hex digit, as produced by the `\u%04x` escape. -/
def hexDigitChar (n : Nat) : Char :=
  if n < 10 then Char.ofNat (48 + n) else Char.ofNat (87 + n)

def encodeChar (c : Char) : List Char :=
  if c = '"' then ['\\', '"']
  else if c = '\\' then ['\\', '\\']
  else if c = Char.ofNat 8 then ['\\', 'b']
  else if c = Char.ofNat 12 then ['\\', 'f']
  else if c = '\n' then ['\\', 'n']
  else if c = '\r' then ['\\', 'r']
  else if c = '\t' then ['\\', 't']
  else if c.toNat < 32 then
    ['\\', 'u', '0', '0', hexDigitChar (c.toNat / 16),
     hexDigitChar (c.toNat % 16)]
  else [c]

def encodeChars : List Char → List Char
  | [] => []
  | c :: cs => encodeChar c ++ encodeChars cs

def encodeStringJ (s : String) : List Char :=
  '"' :: (encodeChars s.data ++ ['"'])

def keyRole : List Char :=
  ['\x7b', '"', 'r', 'o', 'l', 'e', '"', ':', ' ']

def keyContent : List Char :=
  [',', ' ', '"', 'c', 'o', 'n', 't', 'e', 'n', 't', '"', ':', ' ']

def keyTimestamp : List Char :=
  [',', ' ', '"', 't', 'i', 'm', 'e', 's', 't', 'a', 'm', 'p', '"', ':', ' ']

def encodeEntry (e : HistoryEntry) : List Char :=
  keyRole ++ encodeStringJ e.role ++ keyContent ++ encodeStringJ e.content ++
  keyTimestamp ++ encodeStringJ e.timestamp ++ ['\x7d']

/- `", ".join` of the encoded entries. -/
def encodeEntries : List HistoryEntry → List Char
  | [] => []
  | [e] => encodeEntry e
  | e :: es => encodeEntry e ++ [',', ' '] ++ encodeEntries es

def encodeHistoryJ (h : List HistoryEntry) : List Char :=
  '[' :: (encodeEntries h ++ [']'])

/- The file contents written by save_history_to_file. -/
def save_history_to_file (h : List HistoryEntry) : Option (List Char) :=
  some (encodeHistoryJ h)

def hexVal (c : Char) : Option Nat :=
  if 48 ≤ c.toNat && c.toNat ≤ 57 then some (c.toNat - 48)
  else if 97 ≤ c.toNat && c.toNat ≤ 102 then some (c.toNat - 87)
  else if 65 ≤ c.toNat && c.toNat ≤ 70 then some (c.toNat - 55)
  else none

/- JSON string body: consume characters and escapes up to the closing
   quote; return the decoded characters and the remaining input.
   (Surrogate-pair `\u` escapes are not paired: `json.dump` with
   `ensure_ascii=False` never emits `\u` except for control characters.) -/
def decodeStringAux : List Char → Option (List Char × List Char)
  | [] => none
  | c :: rest =>
    if c = '"' then some ([], rest)
    else if c = '\\' then
      match rest with
      | [] => none
      | e :: r2 =>
        if e = '"' then (decodeStringAux r2).map (fun p => ('"' :: p.1, p.2))
        else if e = '\\' then
          (decodeStringAux r2).map (fun p => ('\\' :: p.1, p.2))
        else if e = '/' then
          (decodeStringAux r2).map (fun p => ('/' :: p.1, p.2))
        else if e = 'b' then
          (decodeStringAux r2).map (fun p => (Char.ofNat 8 :: p.1, p.2))
        else if e = 'f' then
          (decodeStringAux r2).map (fun p => (Char.ofNat 12 :: p.1, p.2))
        else if e = 'n' then
          (decodeStringAux r2).map (fun p => ('\n' :: p.1, p.2))
        else if e = 'r' then
          (decodeStringAux r2).map (fun p => ('\r' :: p.1, p.2))
        else if e = 't' then
          (decodeStringAux r2).map (fun p => ('\t' :: p.1, p.2))
        else if e = 'u' then
          match r2 with
          | d1 :: d2 :: d3 :: d4 :: r3 =>
            match hexVal d1, hexVal d2, hexVal d3, hexVal d4 with
            | some a, some b, some c2, some d =>
              (decodeStringAux r3).map
                (fun p =>
                  (Char.ofNat (4096 * a + 256 * b + 16 * c2 + d) :: p.1, p.2))
            | _, _, _, _ => none
          | _ => none
        else none
    else (decodeStringAux rest).map (fun p => (c :: p.1, p.2))

def parseJString : List Char → Option (List Char × List Char)
  | '"' :: rest => decodeStringAux rest
  | _ => none

def dropLit : List Char → List Char → Option (List Char)
  | [], s => some s
  | _ :: _, [] => none
  | c :: cs, d :: ds => if c = d then dropLit cs ds else none

def parseEntryJ (s : List Char) : Option (HistoryEntry × List Char) := do
  let s1 ← dropLit keyRole s
  let (r, s2) ← parseJString s1
  let s3 ← dropLit keyContent s2
  let (cnt, s4) ← parseJString s3
  let s5 ← dropLit keyTimestamp s4
  let (t, s6) ← parseJString s5
  let s7 ← dropLit ['\x7d'] s6
  some (⟨String.mk r, String.mk cnt, String.mk t⟩, s7)

/- Entries after the first: `, ` entry ... `]`. The fuel argument bounds
   the number of entries and makes the recursion structural; callers pass
   the input length, which always suffices. -/
def parseEntriesTail : Nat → List Char → Option (List HistoryEntry × List Char)
  | _, ']' :: rest => some ([], rest)
  | 0, _ => none
  | fuel + 1, ',' :: ' ' :: rest => do
    let (e, r1) ← parseEntryJ rest
    let (es, r2) ← parseEntriesTail fuel r1
    some (e :: es, r2)
  | _, _ => none

def parseHistoryJ (s : List Char) : Option (List HistoryEntry) :=
  match s with
  | '[' :: rest =>
    if rest = [']'] then some []
    else (do
      let (e, r1) ← parseEntryJ rest
      let (es, r2) ← parseEntriesTail s.length r1
      if r2.isEmpty then some (e :: es) else none)
  | _ => none

/- load_history_from_file: absent file or parse failure yields the empty
   list (lines 161-169). -/
def load_history_from_file (file : Option (List Char)) : List HistoryEntry :=
  match file with
  | none => []
  | some content =>
    match parseHistoryJ content with
    | some h => h
    | none => []

lemma hexVal_hexDigitChar : ∀ n, n < 16 → hexVal (hexDigitChar n) = some n := by
  decide

lemma ofNat_div_add_mod (c : Char) :
    Char.ofNat (16 * (c.toNat / 16) + c.toNat % 16) = c := by
  rw [Nat.div_add_mod, Char.ofNat_toNat]

lemma decode_encodeChars (l : List Char) (rest : List Char) :
    decodeStringAux (encodeChars l ++ '"' :: rest) = some (l, rest) := by
  induction l with
  | nil =>
    show decodeStringAux ('"' :: rest) = some ([], rest)
    unfold decodeStringAux
    simp
  | cons c cs ih =>
    show decodeStringAux
        ((encodeChar c ++ encodeChars cs) ++ '"' :: rest) = _
    rw [List.append_assoc]
    unfold encodeChar
    split_ifs with h1 h2 h3 h4 h5 h6 h7 h8
    · subst h1; unfold decodeStringAux; simp [ih]
    · subst h2; unfold decodeStringAux; simp [ih]
    · subst h3; unfold decodeStringAux; simp [ih]
    · subst h4; unfold decodeStringAux; simp [ih]
    · subst h5; unfold decodeStringAux; simp [ih]
    · subst h6; unfold decodeStringAux; simp [ih]
    · subst h7; unfold decodeStringAux; simp [ih]
    · have h0 : hexVal '0' = some 0 := by decide
      have hd : c.toNat / 16 < 16 := by omega
      have hm : c.toNat % 16 < 16 := Nat.mod_lt _ (by norm_num)
      unfold decodeStringAux
      simp [h0, hexVal_hexDigitChar _ hd, hexVal_hexDigitChar _ hm, ih,
        ofNat_div_add_mod]
    · unfold decodeStringAux
      simp [h1, h2, ih]

lemma parseJString_encode (s : String) (rest : List Char) :
    parseJString (encodeStringJ s ++ rest) = some (s.data, rest) := by
  show parseJString ('"' :: (encodeChars s.data ++ ['"'] ++ rest)) = _
  show decodeStringAux (encodeChars s.data ++ ['"'] ++ rest) = _
  rw [List.append_assoc]
  exact decode_encodeChars s.data rest

lemma dropLit_self (lit s : List Char) : dropLit lit (lit ++ s) = some s := by
  induction lit with
  | nil => rfl
  | cons c cs ih =>
    show dropLit (c :: cs) (c :: (cs ++ s)) = some s
    unfold dropLit
    simp [ih]

lemma parseEntryJ_encode (e : HistoryEntry) (rest : List Char) :
    parseEntryJ (encodeEntry e ++ rest) = some (e, rest) := by
  show parseEntryJ
      ((keyRole ++ encodeStringJ e.role ++ keyContent ++
        encodeStringJ e.content ++ keyTimestamp ++ encodeStringJ e.timestamp ++
        ['\x7d']) ++ rest) = _
  simp only [List.append_assoc]
  have h1 : dropLit ['\x7d'] ('\x7d' :: rest) = some rest :=
    dropLit_self ['\x7d'] rest
  simp [parseEntryJ, dropLit_self, parseJString_encode, Option.some_bind, h1]

/- Separator-prefixed form of the tail of a joined entry list. -/
def encodeEntriesSep : List HistoryEntry → List Char
  | [] => []
  | e :: es => ',' :: ' ' :: (encodeEntry e ++ encodeEntriesSep es)

lemma encodeEntries_cons (e : HistoryEntry) (es : List HistoryEntry) :
    encodeEntries (e :: es) = encodeEntry e ++ encodeEntriesSep es := by
  induction es generalizing e with
  | nil => simp [encodeEntries, encodeEntriesSep]
  | cons f fs ih =>
    show encodeEntry e ++ [',', ' '] ++ encodeEntries (f :: fs) = _
    rw [ih f]
    simp [encodeEntriesSep]

lemma parseEntriesTail_encode (es : List HistoryEntry) :
    ∀ (fuel : Nat) (rest : List Char), es.length ≤ fuel →
      parseEntriesTail fuel (encodeEntriesSep es ++ ']' :: rest)
        = some (es, rest) := by
  induction es with
  | nil =>
    intro fuel rest _
    show parseEntriesTail fuel (']' :: rest) = some ([], rest)
    cases fuel with
    | zero => rfl
    | succ f => rfl
  | cons e es ih =>
    intro fuel rest hf
    cases fuel with
    | zero => simp at hf
    | succ f =>
      show parseEntriesTail (f + 1)
          (',' :: ' ' :: ((encodeEntry e ++ encodeEntriesSep es) ++ ']' :: rest))
          = _
      rw [List.append_assoc]
      unfold parseEntriesTail
      simp [parseEntryJ_encode, ih f rest (Nat.le_of_succ_le_succ hf),
        Option.some_bind]

lemma encodeEntriesSep_length_ge (es : List HistoryEntry) :
    es.length ≤ (encodeEntriesSep es).length := by
  induction es with
  | nil => simp [encodeEntriesSep]
  | cons e es ih =>
    simp only [encodeEntriesSep, List.length_cons, List.length_append]
    omega

lemma encodeEntry_head (e : HistoryEntry) :
    ∃ t, encodeEntry e = '\x7b' :: t := by
  exact ⟨_, rfl⟩

/-- Claim C8: the history round-trips through the file — saving any
sequence of entries with save_history_to_file and loading it back with
load_history_from_file (no intervening write) returns the same
sequence. -/
theorem c8_round_trip (H : List HistoryEntry) :
    load_history_from_file (save_history_to_file H) = H := by
  cases H with
  | nil => rfl
  | cons e es =>
    show (match parseHistoryJ (encodeHistoryJ (e :: es)) with
          | some h => h
          | none => []) = e :: es
    have hbody : encodeEntries (e :: es) ++ [']']
        = encodeEntry e ++ (encodeEntriesSep es ++ ']' :: []) := by
      rw [encodeEntries_cons, List.append_assoc]
    obtain ⟨t, ht⟩ := encodeEntry_head e
    have hne : encodeEntries (e :: es) ++ [']'] ≠ [']'] := by
      rw [hbody, ht]
      intro hcon
      simp at hcon
    have hlen : es.length
        ≤ (encodeEntry e).length + ((encodeEntriesSep es).length + 1) + 1 := by
      have := encodeEntriesSep_length_ge es
      omega
    show (match parseHistoryJ ('[' :: (encodeEntries (e :: es) ++ [']'])) with
          | some h => h
          | none => []) = e :: es
    rw [parseHistoryJ]
    rw [if_neg hne]
    rw [hbody, parseEntryJ_encode]
    have htail := parseEntriesTail_encode es
      ((encodeEntry e).length + ((encodeEntriesSep es).length + 1) + 1) [] hlen
    simp [htail]

end Translator
